import Mathlib

/-!
Verification development for the TinyChart utility scripts.

The repository holds two small Python programs:

* `TinyChart/inference.py` — a resumable batch-inference driver: it lists the
  image files of a directory, skips images already present in the output file
  (the "done" set), invokes an external inference capability per image, appends
  one JSON line per record (flushed after each image), and finally rewrites the
  file as a pretty-printed JSON array.
* `TinyChart/convert_preds_format.py` — a run-directory builder: it validates a
  list of `(imagename, answer)` rows (`build_predictions`), derives a run name
  from a timestamp, the images directory, the model name and a formatted
  temperature (`_format_temp`), and writes three artifact files.

This file is a shallow embedding of those scripts.  Python values decoded from
JSON are modelled by `PyVal`; the driver's output file is modelled by the
`OutContent` abstraction whose constructors record the physical shape of the
file text (line-delimited JSON, a pretty-printed document, or unparseable
text), which is exactly the information `json.load`, per-line `json.loads` and
append-mode writes depend on.  Floating point temperatures are idealised as
decimal literals (an integer mantissa with a power-of-ten scale, the shape of
every `--temperature` command line argument); `f"{t:.3f}"` is modelled by
round-half-even rounding of `1000·t`, which agrees with Python float
formatting on every input used below.
-/

/-- Python values arising from JSON decoding (`json.load` / `json.loads`).
Numbers are modelled as integers; the scripts never rely on fractional JSON
numbers. -/
inductive PyVal where
  | str (s : String)
  | int (n : Int)
  | bool (b : Bool)
  | null
  | list (xs : List PyVal)
  | dict (kvs : List (String × PyVal))
  deriving Repr

/-- Occurrence test of `pat` as a contiguous run inside `s`
(cons-by-cons search). -/
def listContains (pat : List Char) : List Char → Bool
  | [] => pat.isEmpty
  | c :: rest => pat.isPrefixOf (c :: rest) || listContains pat rest

/-- Python substring test `needle in s` for strings. -/
def strContains (s needle : String) : Bool :=
  listContains needle.toList s.toList

/-- Python equality test of a value against a `str`: values of other types
compare unequal to a string. -/
def pyEqStr : PyVal → String → Bool
  | .str s, t => s == t
  | _, _ => false

/-- Python membership test `needle in v` where `needle` is a `str`:
substring test on strings, key test on dicts, element equality on lists;
a `TypeError` (modelled as `none`) otherwise. -/
def pyInStr (needle : String) : PyVal → Option Bool
  | .str s => some (strContains s needle)
  | .dict kvs => some (kvs.any (fun kv => kv.1 == needle))
  | .list xs => some (xs.any (fun x => pyEqStr x needle))
  | _ => none

/-- Python subscription `v[key]` with a string key: dict lookup (`KeyError`
and `TypeError` both modelled as `none`; neither is caught by the driver). -/
def pySubscript (v : PyVal) (key : String) : Option PyVal :=
  match v with
  | .dict kvs => kvs.lookup key
  | _ => none

/-- Python iteration `for r in v`: lists yield their elements, dicts their
keys, strings their characters; other values raise `TypeError` (`none`). -/
def pyIterate : PyVal → Option (List PyVal)
  | .list xs => some xs
  | .dict kvs => some (kvs.map (fun kv => PyVal.str kv.1))
  | .str s => some (s.toList.map (fun c => PyVal.str (String.singleton c)))
  | _ => none

/-! ## The Driver (`inference.py`) -/

/-- Extensions accepted by the driver (`inference.py` line 29). -/
def image_extensions : List String := [".png", ".jpg", ".jpeg", ".gif"]

/-- Suffix test on character lists (model of `str.endswith`). -/
def listEndsWith (s pat : List Char) : Bool :=
  s.drop (s.length - pat.length) == pat

/-- Model of Python `str.lower()` (the file names at hand are ASCII). -/
def strLower (s : String) : List Char :=
  s.toList.map Char.toLower

/-- Driver image-file predicate: `f.lower().endswith(image_extensions)`
(`inference.py` lines 30–35; the `os.path.isfile` conjunct is reflected by
taking the input listing to consist of regular files). -/
def isImageFile (name : String) : Bool :=
  image_extensions.any (fun e => listEndsWith (strLower name) e.toList)

/-- Lexicographic comparison of character lists by code point (the order of
Python string comparison). -/
def lexLe : List Char → List Char → Bool
  | [], _ => true
  | _ :: _, [] => false
  | a :: as, b :: bs =>
      if a.toNat < b.toNat then true
      else if b.toNat < a.toNat then false
      else lexLe as bs

/-- Insert a string into a lexicographically sorted list. -/
def insertSorted (x : String) : List String → List String
  | [] => [x]
  | y :: ys => if lexLe x.toList y.toList then x :: y :: ys
               else y :: insertSorted x ys

/-- Lexicographic insertion sort (model of Python `list.sort()` on strings;
on a duplicate-free list any correct sort yields the same result). -/
def sortStrings : List String → List String
  | [] => []
  | x :: xs => insertSorted x (sortStrings xs)

/-- Driver image discovery: filter the directory listing by extension and sort
lexicographically (`inference.py` lines 30–36). -/
def discoverImages (listing : List String) : List String :=
  sortStrings (listing.filter isImageFile)

/-- Uncaught Python exceptions that can escape the driver. -/
inductive PyError where
  | typeError
  | jsonDecodeError
  deriving Repr, DecidableEq

/-- Physical state of the driver output file.  Constructors record exactly the
structure the driver's file operations observe:

* `absent` — no file at the output path;
* `jsonl vs` — one compact JSON document per line (the shape produced by the
  driver's append loop, and by an interrupted run);
* `pretty v` — the file holds `json.dump(v, indent=2)` and nothing else (the
  shape produced by the final normalization);
* `prettyPlus v vs` — a pretty-printed document followed by appended compact
  lines (a resumed run over a normalized file);
* `corrupt` — text that parses neither as a whole document nor line by line;
* `corruptPlus vs` — such text followed by appended compact lines. -/
inductive OutContent where
  | absent
  | jsonl (vs : List PyVal)
  | pretty (v : PyVal)
  | prettyPlus (v : PyVal) (vs : List PyVal)
  | corrupt
  | corruptPlus (vs : List PyVal)
  deriving Repr

/-- Model of `os.path.exists` on the output path. -/
def OutContent.fileExists : OutContent → Bool
  | .absent => false
  | _ => true

/-- Whether `json.dump(v, indent=2)` spans more than one physical line: it
does exactly when `v` is a non-empty list or dict. -/
def multilinePretty : PyVal → Bool
  | .list (_ :: _) => true
  | .dict (_ :: _) => true
  | _ => false

/-- Model of `json.load` applied to the whole file (`inference.py` line 43):
a lone compact line parses to its value, two or more lines fail with extra
data, an empty file fails, a pretty document parses to its value, a pretty
document with appended lines fails with extra data, corrupt text fails. -/
def jsonLoad : OutContent → Option PyVal
  | .absent => none
  | .jsonl [v] => some v
  | .jsonl _ => none
  | .pretty v => some v
  | .prettyPlus v [] => some v
  | .prettyPlus _ (_ :: _) => none
  | .corrupt => none
  | .corruptPlus _ => none

/-- Model of the done-set comprehension
`set(r["imagename"] for r in results if "imagename" in r)`
(`inference.py` line 46).  The set is used only through membership tests, so it
is kept as the list of collected values; `none` models an uncaught
`TypeError`. -/
def doneImages (results : PyVal) : Option (List PyVal) := do
  let items ← pyIterate results
  items.foldlM
    (fun acc r => do
      let b ← pyInStr "imagename" r
      if b then
        let v ← pySubscript r "imagename"
        pure (acc ++ [v])
      else
        pure acc)
    []

/-- Done-set computation of the driver (`inference.py` lines 38–48): when the
output file exists, `json.load` it; on any parse failure fall back to an empty
result list.  The comprehension itself can still raise (`none`). -/
def driverDoneSet (existing : OutContent) : Option (List PyVal) :=
  if existing.fileExists then
    match jsonLoad existing with
    | some v => doneImages v
    | none => doneImages (.list [])
  else
    some []

/-- Images processed by the loop: discovered images not in the done set
(`inference.py` lines 52–54). -/
def driverPending (listing : List String) (done : List PyVal) : List String :=
  (discoverImages listing).filter (fun f => !(done.any (fun v => pyEqStr v f)))

/-- Per-image inference with failure isolation (`inference.py` lines 57–69):
an exception with message `m` yields the answer `"Error: " ++ m`. -/
def runInfer (infer : String → Except String String) (f : String) : String :=
  match infer f with
  | .ok r => r
  | .error m => "Error: " ++ m

/-- Records appended (and flushed) by one uninterrupted pass of the loop. -/
def driverRecords (listing : List String) (done : List PyVal)
    (infer : String → Except String String) : List (String × String) :=
  (driverPending listing done).map (fun f => (f, runInfer infer f))

/-- JSON object written for one image (`inference.py` line 70). -/
def recordVal (name answer : String) : PyVal :=
  .dict [("imagename", .str name), ("answer", .str answer)]

/-- Effect of the append-mode loop on the file: opening with mode `"a"`
creates a missing file even when nothing is written, and each record becomes
one compact line at the end of the existing text (`inference.py` lines
51–73). -/
def appendLines : OutContent → List PyVal → OutContent
  | .absent, vs => .jsonl vs
  | .jsonl us, vs => .jsonl (us ++ vs)
  | .pretty v, [] => .pretty v
  | .pretty v, vs => .prettyPlus v vs
  | .prettyPlus v us, vs => .prettyPlus v (us ++ vs)
  | .corrupt, [] => .corrupt
  | .corrupt, vs => .corruptPlus vs
  | .corruptPlus us, vs => .corruptPlus (us ++ vs)

/-- Final normalization (`inference.py` lines 75–81): read every line, parse
each non-blank line with `json.loads` (uncaught `JSONDecodeError` if any line
is not a complete document, in particular any line of a multi-line
pretty-printed document), and rewrite the file as
`json.dump(objs, indent=2)`. -/
def driverNormalize : OutContent → Except PyError OutContent
  | .absent => .error .jsonDecodeError
  | .jsonl vs => .ok (.pretty (.list vs))
  | .pretty v =>
      if multilinePretty v then .error .jsonDecodeError
      else .ok (.pretty (.list [v]))
  | .prettyPlus v vs =>
      if multilinePretty v then .error .jsonDecodeError
      else .ok (.pretty (.list (v :: vs)))
  | .corrupt => .error .jsonDecodeError
  | .corruptPlus _ => .error .jsonDecodeError

/-- The driver `main` (`inference.py`), for one invocation: `listing` is the
directory listing (regular files), `existing` the output-file state, `infer`
the external inference capability.  On success the result carries the records
appended by this run and the final file state; on an uncaught exception it
carries the error and the file state at the moment of the crash. -/
def driverMain (listing : List String) (existing : OutContent)
    (infer : String → Except String String) :
    Except (PyError × OutContent) (List (String × String) × OutContent) :=
  match driverDoneSet existing with
  | none => .error (.typeError, existing)
  | some done =>
    let recs := driverRecords listing done infer
    let appended := appendLines existing (recs.map (fun r => recordVal r.1 r.2))
    match driverNormalize appended with
    | .ok final => .ok (recs, final)
    | .error e => .error (e, appended)

/-! ## The Builder (`convert_preds_format.py`) -/

/-- Decimal digit character (`0 ≤ d ≤ 9`; other inputs are never used). -/
def digitCh : Nat → Char
  | 0 => '0' | 1 => '1' | 2 => '2' | 3 => '3' | 4 => '4'
  | 5 => '5' | 6 => '6' | 7 => '7' | 8 => '8' | _ => '9'

/-- Digit-string worker, structurally recursive on a fuel bound so that the
kernel can evaluate it. -/
def natReprAux : Nat → Nat → List Char
  | 0, _ => []
  | fuel + 1, n =>
      if n < 10 then [digitCh n]
      else natReprAux fuel (n / 10) ++ [digitCh (n % 10)]

/-- Decimal digit string of a natural number, most significant digit first
(the character-list model of Python `str(n)` for naturals). -/
def natRepr (n : Nat) : List Char :=
  natReprAux (n + 1) n


/-- JSON string escaping as performed by `json.dumps(·, ensure_ascii=False)`:
backslash, double quote, and control characters are escaped, everything else
is kept verbatim. -/
def jsonEscapeChar (c : Char) : String :=
  if c = '"' then "\\\""
  else if c = '\\' then "\\\\"
  else if c = '\n' then "\\n"
  else if c = '\t' then "\\t"
  else if c = '\r' then "\\r"
  else if c.toNat < 32 then
    "\\u00" ++ String.mk [digitCh (c.toNat / 16), digitCh (c.toNat % 16)]
  else String.singleton c

/-- String-level JSON escaping. -/
def jsonEscape (s : String) : String :=
  String.join (s.toList.map jsonEscapeChar)

/-- Decimal representation of an integer (model of Python `str(n)`). -/
def intRepr (n : Int) : String :=
  (if n < 0 then "-" else "") ++ String.mk (natRepr n.natAbs)

mutual

/-- Model of compact `json.dumps(v, ensure_ascii=False)` (used by
`build_predictions` to stringify a non-string `answer`). -/
def jsonDumps : PyVal → String
  | .str s => "\"" ++ jsonEscape s ++ "\""
  | .int n => intRepr n
  | .bool b => if b then "true" else "false"
  | .null => "null"
  | .list xs => "[" ++ jsonDumpsItems xs ++ "]"
  | .dict kvs => "\x7b" ++ jsonDumpsPairs kvs ++ "\x7d"

/-- Comma-separated serialization of array items. -/
def jsonDumpsItems : List PyVal → String
  | [] => ""
  | [x] => jsonDumps x
  | x :: y :: rest => jsonDumps x ++ ", " ++ jsonDumpsItems (y :: rest)

/-- Comma-separated serialization of object members. -/
def jsonDumpsPairs : List (String × PyVal) → String
  | [] => ""
  | [(k, v)] => "\"" ++ jsonEscape k ++ "\": " ++ jsonDumps v
  | (k, v) :: p :: rest =>
      "\"" ++ jsonEscape k ++ "\": " ++ jsonDumps v ++ ", " ++
        jsonDumpsPairs (p :: rest)

end

/-- One Builder input row, a JSON object (keys are unique, in insertion
order). -/
abbrev Row := List (String × PyVal)

/-- Keys of a row, as in Python `list(row.keys())`. -/
def rowKeys (row : Row) : List String := row.map (fun kv => kv.1)

/-- Validation errors raised by `build_predictions`
(`convert_preds_format.py` lines 76–85).  `missingKey i k ks` models
`ValueError(f"Row i missing required key k. Keys=ks")`;
`badImagename i` models `ValueError(f"Row i imagename must be a string, got
type")` — note this message does not list the row keys. -/
inductive BuildError where
  | missingKey (i : Nat) (key : String) (keys : List String)
  | badImagename (i : Nat)
  deriving Repr, DecidableEq

/-- Python `str`-test plus deterministic stringification of the `answer`
value (`convert_preds_format.py` lines 86–88). -/
def pyAnswerStr : PyVal → String
  | .str s => s
  | v => jsonDumps v

/-- Model of Python `s.replace(a, b)` for single-character arguments. -/
def replaceCh (l : List Char) (a b : Char) : List Char :=
  l.map (fun c => if c = a then b else c)

/-- Output element appended for a valid row
(`convert_preds_format.py` lines 90–97): `|` is replaced by a tab in the
answer. -/
def predOut (img ans : String) : Row :=
  [("image", .str img), ("answer", .str (String.mk (replaceCh ans.toList '|' '\t'))),
   ("input_tokens", .int 0), ("output_tokens", .int 0)]

/-- Worker of `build_predictions`, carrying the enumeration index `i`
(`convert_preds_format.py` lines 73–98): the first invalid row aborts the
whole batch. -/
def buildPredAux (i : Nat) : List Row → Except BuildError (List Row)
  | [] => .ok []
  | row :: rest =>
    match row.lookup "imagename" with
    | none => .error (.missingKey i "imagename" (rowKeys row))
    | some image =>
      match row.lookup "answer" with
      | none => .error (.missingKey i "answer" (rowKeys row))
      | some answer =>
        match image with
        | .str img =>
          match buildPredAux (i + 1) rest with
          | .ok out => .ok (predOut img (pyAnswerStr answer) :: out)
          | .error e => .error e
        | _ => .error (.badImagename i)

/-- Model of `build_predictions` (`convert_preds_format.py` lines 73–98). -/
def build_predictions (rows : List Row) : Except BuildError (List Row) :=
  buildPredAux 0 rows

/-! ### Temperature formatting

Python's `f"{t:.3f}"` formats the temperature with exactly three decimals,
rounding half to even.  A temperature is idealised as the decimal literal
passed on the command line: a sign, an integer mantissa `num` and a
power-of-ten scale `exp`, denoting `sgn · num / 10 ^ exp`. -/

/-- Decimal temperature value `(if neg then -1 else 1) * num / 10 ^ exp`. -/
structure DecTemp where
  neg : Bool
  num : Nat
  exp : Nat

/-- Division of naturals rounded half to even (the rounding of Python float
formatting), for a positive divisor. -/
def rheDivNat (a b : Nat) : Nat :=
  let q := a / b
  let r := a % b
  if 2 * r < b then q
  else if b < 2 * r then q + 1
  else if q % 2 = 0 then q else q + 1

/-- Numerator of the `.3f` rendering of a temperature: `|t| · 1000`, rounded
half to even. -/
def milli (t : DecTemp) : Nat :=
  rheDivNat (t.num * 1000) (10 ^ t.exp)

/-- Left-pad the digits of `n < 1000` to width three with zeros (the
fractional part of a `.3f` rendering). -/
def pad3 (n : Nat) : List Char :=
  (if n < 10 then ['0', '0'] else if n < 100 then ['0'] else []) ++ natRepr n

/-- Character-level model of `f"{t:.3f}"`: sign, integer part, a point, and
exactly three fractional digits. -/
def format3f (t : DecTemp) : List Char :=
  (if t.neg then ['-'] else []) ++
    natRepr (milli t / 1000) ++ '.' :: pad3 (milli t % 1000)

/-- Model of Python `s.rstrip(c)` for a single strip character: remove every
trailing occurrence of `c`. -/
def rstripChar (l : List Char) (c : Char) : List Char :=
  (l.reverse.dropWhile (fun x => x == c)).reverse

/-- Model of `_format_temp` (`convert_preds_format.py` lines 135–138):
`f"{t:.3f}".rstrip("0").rstrip(".")` followed by `.replace(".", "p")`. -/
def _format_temp (t : DecTemp) : String :=
  String.mk (replaceCh (rstripChar (rstripChar (format3f t) '0') '.') '.' 'p')

/-! ### The Builder `main` -/

/-- Errors that can abort the Builder `main`:
`fileNotFound` — the `--input_json` path does not exist
(`convert_preds_format.py` line 131);
`indexError` — `args.input_images_dir.split('/')[1]` on a value with no `/`
(line 146);
`fileExists` — `_safe_mkdir` on an already-existing run directory (lines
29–30 and 152);
`nameError` — the call of the undefined name `_read_json` (line 154; the
module defines only `read_jsonl`). -/
inductive BuilderError where
  | fileNotFound
  | indexError
  | fileExists
  | nameError
  deriving Repr, DecidableEq

/-- Command-line arguments of the Builder (`convert_preds_format.py` lines
102–125); the temperature is idealised as a rational. -/
structure BuilderArgs where
  input_json : String
  out_root : String
  run_name : String
  input_images_dir : String
  model : String
  temperature : DecTemp

/-- Filesystem facts the Builder `main` observes before writing. -/
structure BuilderWorld where
  inputExists : Bool
  outRootExists : Bool
  outDirExists : String → Bool

/-- Everything the Builder `main` did before finishing or aborting:
directories it created, artifact files it wrote, and the final result. -/
structure BuilderOutcome where
  createdDirs : List String
  writtenFiles : List String
  result : Except BuilderError Unit
  deriving Repr

/-- Model of Python `s.strip()`: remove leading and trailing whitespace. -/
def pyStrip (s : String) : String :=
  String.mk (((s.toList.dropWhile Char.isWhitespace).reverse.dropWhile
    Char.isWhitespace).reverse)

/-- Model of Python `s.split(sep)` for a single-character separator: the
pieces between occurrences of `sep`, in order (always at least one piece). -/
def splitOnCh (sep : Char) : List Char → List (List Char)
  | [] => [[]]
  | x :: xs =>
    match splitOnCh sep xs with
    | [] => [[]]
    | g :: gs => if x = sep then [] :: g :: gs else (x :: g) :: gs

/-- Auto-derived run name (`convert_preds_format.py` lines 141–148):
`f"{timestamp}__{segment}_{model}_temp{tag}_"` where `segment` is the second
`/`-separated piece of `--input_images_dir` with spaces replaced by
underscores; indexing a missing second piece raises `IndexError`. -/
def autoRunName (ts : String) (a : BuilderArgs) : Except BuilderError String :=
  match (splitOnCh '/' a.input_images_dir.toList).get? 1 with
  | none => .error .indexError
  | some seg =>
      .ok (ts ++ "__" ++ String.mk (replaceCh seg ' ' '_') ++ "_" ++
        a.model ++ "_temp" ++ _format_temp a.temperature ++ "_")

/-- Model of the Builder `main` (`convert_preds_format.py` lines 101–178),
with the timestamp supplied as a parameter.  Steps in source order: input
existence check; creation of `--out_root` when missing (`exist_ok=True`);
evaluation of the auto-derived run name (always, even when `--run_name` is
given); the `--run_name` override (`args.run_name.strip() or run_name`);
exclusive creation of the run directory; then the call of the undefined
`_read_json`, which raises `NameError` unconditionally, so the artifact
writes further down are unreachable. -/
def builderMain (ts : String) (a : BuilderArgs) (w : BuilderWorld) :
    BuilderOutcome :=
  if !w.inputExists then
    ⟨[], [], .error .fileNotFound⟩
  else
    let rootDirs := if w.outRootExists then [] else [a.out_root]
    match autoRunName ts a with
    | .error e => ⟨rootDirs, [], .error e⟩
    | .ok auto =>
      let name := if pyStrip a.run_name = "" then auto else pyStrip a.run_name
      if w.outDirExists name then
        ⟨rootDirs, [], .error .fileExists⟩
      else
        ⟨rootDirs ++ [a.out_root ++ "/" ++ name], [], .error .nameError⟩

/-! ## Specification-side definitions -/

/-- Imagename fields of a JSON array of objects (used to state which images a
normalized output file mentions). -/
def imagenamesOf (vs : List PyVal) : List String :=
  vs.filterMap (fun v =>
    match pySubscript v "imagename" with
    | some (.str s) => some s
    | _ => none)

/-- Two-digit zero-padded block. -/
def pad2 (n : Nat) : List Char :=
  (if n < 10 then ['0'] else []) ++ natRepr n

/-- Fractional part of a three-decimal rendering with its trailing zeros
removed (empty when the fraction is zero). -/
def minFrac (fp : Nat) : List Char :=
  if fp = 0 then []
  else if fp % 100 = 0 then natRepr (fp / 100)
  else if fp % 10 = 0 then pad2 (fp / 10)
  else pad3 fp

/-- Modelled from the spec: the amended temperature-tag formula — the
temperature formatted to three decimal places (half to even), trailing zeros
and the decimal point trimmed, and the point replaced by `p` — built directly
from digit blocks rather than through string stripping. -/
def amendedTempTag (t : DecTemp) : String :=
  String.mk ((if t.neg then ['-'] else []) ++ natRepr (milli t / 1000) ++
    (if milli t % 1000 = 0 then [] else 'p' :: minFrac (milli t % 1000)))

/-- Zero-pad the digits of `n` on the left to width `w`. -/
def padLeft (w n : Nat) : List Char :=
  List.replicate (w - (natRepr n).length) '0' ++ natRepr n

/-- Modelled from the spec: the temperature tag exactly as claim C9 words it —
the decimal representation of the temperature itself (with at least one
decimal place, as Python renders floats), trailing zeros and the decimal point
trimmed, then `.` replaced by `p`; no three-decimal rounding takes place. -/
def claimTempTag (t : DecTemp) : String :=
  let e := max t.exp 1
  let m := t.num * 10 ^ (e - t.exp)
  String.mk (replaceCh (rstripChar (rstripChar
    ((if t.neg then ['-'] else []) ++ natRepr (m / 10 ^ e) ++
      '.' :: padLeft e (m % 10 ^ e)) '0') '.') '.' 'p')

/-- Inference stub that always succeeds, for concrete runs. -/
def inferOk (f : String) : Except String String := .ok ("table of " ++ f)

/-- Inference stub that fails on `b.png`, for concrete runs. -/
def inferBoom (f : String) : Except String String :=
  if f = "b.png" then .error "boom" else .ok ("table of " ++ f)

/-! ## Helper lemmas -/

/-- Fuel irrelevance for `natReprAux`. -/
theorem natReprAux_congr : ∀ (f g n : Nat), n < f → n < g →
    natReprAux f n = natReprAux g n
  | f + 1, g + 1, n, hf, hg => by
    simp only [natReprAux]
    split
    · rfl
    · rename_i h
      have h10 : 10 ≤ n := by omega
      have hd : n / 10 < n := Nat.div_lt_self (by omega) (by omega)
      rw [natReprAux_congr f g (n / 10) (by omega) (by omega)]

/-- Unfolding equation of `natRepr`. -/
theorem natRepr_eq (n : Nat) :
    natRepr n = if n < 10 then [digitCh n] else natRepr (n / 10) ++ [digitCh (n % 10)] := by
  by_cases h : n < 10
  · simp only [natRepr, natReprAux, if_pos h]
  · have hd : n / 10 < n := Nat.div_lt_self (by omega) (by omega)
    unfold natRepr
    conv_lhs => rw [natReprAux]
    rw [if_neg h, if_neg h]
    rw [natReprAux_congr n (n / 10 + 1) (n / 10) (by omega) (by omega)]

/-- Inserting into a sorted list is a permutation of consing. -/
theorem insertSorted_perm (x : String) (l : List String) :
    (insertSorted x l).Perm (x :: l) := by
  induction l with
  | nil => exact List.Perm.refl _
  | cons y ys ih =>
    unfold insertSorted
    split
    · exact List.Perm.refl _
    · exact (List.Perm.cons y ih).trans (List.Perm.swap x y ys)

/-- Insertion sort permutes its input. -/
theorem sortStrings_perm (l : List String) : (sortStrings l).Perm l := by
  induction l with
  | nil => exact List.Perm.refl _
  | cons x xs ih =>
    exact (insertSorted_perm x (sortStrings xs)).trans (List.Perm.cons x ih)

/-- Discovery permutes the filtered listing. -/
theorem discoverImages_perm (listing : List String) :
    (discoverImages listing).Perm (listing.filter isImageFile) :=
  sortStrings_perm _

/-- Discovery of a duplicate-free listing is duplicate-free. -/
theorem discoverImages_nodup {listing : List String} (h : listing.Nodup) :
    (discoverImages listing).Nodup :=
  (discoverImages_perm listing).symm.nodup (h.filter _)

/-- With an empty done set nothing is skipped. -/
theorem driverPending_nil (listing : List String) :
    driverPending listing [] = discoverImages listing := by
  simp [driverPending]

/-- A fresh run (no pre-existing output file) appends one record per
discovered image and normalizes them into a pretty-printed array. -/
theorem driverMain_absent (listing : List String)
    (infer : String → Except String String) :
    driverMain listing .absent infer =
      .ok (driverRecords listing [] infer,
        .pretty (.list ((driverRecords listing [] infer).map
          (fun r => recordVal r.1 r.2)))) := rfl

/-- Imagename extraction from a record list. -/
theorem imagenamesOf_cons (x a : String) (rest : List PyVal) :
    imagenamesOf (recordVal x a :: rest) = x :: imagenamesOf rest := rfl

/-- Imagename extraction inverts record construction. -/
theorem imagenamesOf_records (l : List String) (g : String → String) :
    imagenamesOf (l.map (fun f => recordVal f (g f))) = l := by
  induction l with
  | nil => rfl
  | cons x xs ih => rw [List.map_cons, imagenamesOf_cons, ih]

/-! ## Claims about the Driver -/

/-- Claim C1 (code bug): the spec promises that after an interruption that
left k line-delimited records (0 < k < N), a second run processes only the
remaining N−k images and ends with exactly N entries and no duplicate
imagenames.  The code does not deliver this: with k = 2 of N = 3 records on
disk, the whole-file `json.load` fails on multi-line JSONL, the done set is
empty, all 3 images are re-run, and the final array holds 5 records with
duplicated imagenames; with k = 1, the lone record parses as a dict and the
done-set comprehension crashes with a `TypeError`. -/
theorem driver_interrupted_run_duplicates :
    driverMain ["a.png", "b.png", "c.png"]
      (.jsonl [recordVal "a.png" "ra", recordVal "b.png" "rb"]) inferOk =
      .ok ([("a.png", "table of a.png"), ("b.png", "table of b.png"),
            ("c.png", "table of c.png")],
        .pretty (.list [recordVal "a.png" "ra", recordVal "b.png" "rb",
          recordVal "a.png" "table of a.png", recordVal "b.png" "table of b.png",
          recordVal "c.png" "table of c.png"])) ∧
    imagenamesOf [recordVal "a.png" "ra", recordVal "b.png" "rb",
      recordVal "a.png" "table of a.png", recordVal "b.png" "table of b.png",
      recordVal "c.png" "table of c.png"] =
      ["a.png", "b.png", "a.png", "b.png", "c.png"] ∧
    ¬ (["a.png", "b.png", "a.png", "b.png", "c.png"].Nodup) ∧
    driverMain ["a.png", "b.png", "c.png"]
      (.jsonl [recordVal "a.png" "ra"]) inferOk =
      .error (.typeError, .jsonl [recordVal "a.png" "ra"]) :=
  ⟨rfl, rfl, by decide, rfl⟩

/-- Claim C2 (code bug): the spec promises that a second run over an already
complete output leaves the file unchanged and raises no error.  In the code
the second run skips every image, but normalization then re-reads the
pretty-printed array line by line and crashes with a `JSONDecodeError` on its
first line. -/
theorem driver_second_run_crashes :
    driverMain ["a.png"] .absent inferOk =
      .ok ([("a.png", "table of a.png")],
        .pretty (.list [recordVal "a.png" "table of a.png"])) ∧
    driverMain ["a.png"] (.pretty (.list [recordVal "a.png" "table of a.png"]))
      inferOk =
      .error (.jsonDecodeError,
        .pretty (.list [recordVal "a.png" "table of a.png"])) :=
  ⟨rfl, rfl⟩

/-- Claim C5 (confirmed): one uninterrupted run on a fresh output path yields
a pretty-printed JSON array with exactly one object per discovered image,
whose imagenames are exactly the discovered file names, without duplicates;
an empty directory yields an empty array. -/
theorem driver_single_run_complete (listing : List String)
    (infer : String → Except String String) (h : listing.Nodup) :
    driverMain listing .absent infer =
      .ok ((discoverImages listing).map (fun f => (f, runInfer infer f)),
        .pretty (.list ((discoverImages listing).map
          (fun f => recordVal f (runInfer infer f))))) ∧
    imagenamesOf ((discoverImages listing).map
      (fun f => recordVal f (runInfer infer f))) = discoverImages listing ∧
    (discoverImages listing).Nodup ∧
    (discoverImages listing).length = (listing.filter isImageFile).length ∧
    driverMain [] .absent infer = .ok ([], .pretty (.list [])) := by
  have hrec : driverRecords listing [] infer =
      (discoverImages listing).map (fun f => (f, runInfer infer f)) := by
    rw [driverRecords, driverPending_nil]
  refine ⟨?_, imagenamesOf_records _ _, discoverImages_nodup h,
    (discoverImages_perm listing).length_eq, rfl⟩
  rw [driverMain_absent, hrec, List.map_map]
  rfl

/-- Witness for C5 at a concrete directory listing (case-insensitive
extension match, non-image file filtered out, lexicographic order). -/
theorem driver_single_run_complete_witness :
    ["b.png", "a.txt", "A.JPG"].Nodup ∧
    driverMain ["b.png", "a.txt", "A.JPG"] .absent inferOk =
      .ok ([("A.JPG", "table of A.JPG"), ("b.png", "table of b.png")],
        .pretty (.list [recordVal "A.JPG" "table of A.JPG",
                        recordVal "b.png" "table of b.png"])) :=
  ⟨by decide,
    (driver_single_run_complete ["b.png", "a.txt", "A.JPG"] inferOk (by decide)).1⟩

/-- Claim C6 (confirmed): an image whose inference call raises is recorded
with answer `"Error: " ++ message` instead of aborting, every pending image
still gets a record, and the run either completes with exactly these records
or fails only later, at normalization, after all of them were appended and
flushed. -/
theorem driver_error_isolated (listing : List String) (existing : OutContent)
    (done : List PyVal) (infer : String → Except String String)
    (f m : String)
    (h1 : driverDoneSet existing = some done)
    (h2 : f ∈ driverPending listing done)
    (h3 : infer f = .error m) :
    (f, "Error: " ++ m) ∈ driverRecords listing done infer ∧
    (driverRecords listing done infer).length =
      (driverPending listing done).length ∧
    ((∃ c, driverMain listing existing infer =
        .ok (driverRecords listing done infer, c)) ∨
     (∃ e, driverMain listing existing infer =
        .error (e, appendLines existing ((driverRecords listing done infer).map
          (fun r => recordVal r.1 r.2))))) := by
  refine ⟨?_, by simp [driverRecords], ?_⟩
  · exact List.mem_map.mpr ⟨f, h2, by simp [runInfer, h3]⟩
  · have key : driverMain listing existing infer =
        (match driverNormalize (appendLines existing
            ((driverRecords listing done infer).map (fun r => recordVal r.1 r.2))) with
          | .ok final => .ok (driverRecords listing done infer, final)
          | .error e => .error (e, appendLines existing
              ((driverRecords listing done infer).map (fun r => recordVal r.1 r.2)))) := by
      unfold driverMain
      rw [h1]
    rw [key]
    cases hn : driverNormalize (appendLines existing
        ((driverRecords listing done infer).map (fun r => recordVal r.1 r.2))) with
    | ok c => exact .inl ⟨c, rfl⟩
    | error e => exact .inr ⟨e, rfl⟩

/-- Witness for C6: with b.png failing and a.png, c.png succeeding, the
failing image is recorded with the error sentinel and the batch completes. -/
theorem driver_error_isolated_witness :
    driverDoneSet .absent = some [] ∧
    "b.png" ∈ driverPending ["a.png", "b.png", "c.png"] [] ∧
    inferBoom "b.png" = .error "boom" ∧
    (("b.png", "Error: boom") ∈
        driverRecords ["a.png", "b.png", "c.png"] [] inferBoom ∧
      (driverRecords ["a.png", "b.png", "c.png"] [] inferBoom).length =
        (driverPending ["a.png", "b.png", "c.png"] []).length ∧
      ((∃ c, driverMain ["a.png", "b.png", "c.png"] .absent inferBoom =
          .ok (driverRecords ["a.png", "b.png", "c.png"] [] inferBoom, c)) ∨
       (∃ e, driverMain ["a.png", "b.png", "c.png"] .absent inferBoom =
          .error (e, appendLines .absent
            ((driverRecords ["a.png", "b.png", "c.png"] [] inferBoom).map
              (fun r => recordVal r.1 r.2)))))) :=
  ⟨rfl, by decide, rfl,
    driver_error_isolated ["a.png", "b.png", "c.png"] .absent [] inferBoom
      "b.png" "boom" rfl (by decide) rfl⟩

/-- Claim C7, counterexample: the claim says every pre-existing output file
that does not parse as a JSON array of objects gives an empty done set and
never raises.  A file holding just the number 5 parses as JSON (so the
fallback to an empty result list is not taken) but is not iterable, and the
done-set comprehension raises a `TypeError`, crashing the run. -/
theorem driver_doneset_counterexample :
    jsonLoad (.jsonl [.int 5]) = some (.int 5) ∧
    driverDoneSet (.jsonl [.int 5]) = none ∧
    driverMain ["a.png"] (.jsonl [.int 5]) inferOk =
      .error (.typeError, .jsonl [.int 5]) :=
  ⟨rfl, rfl, rfl⟩

/-- Claim C7 as amended (corrected): for every pre-existing output file whose
contents fail to parse as JSON at all, the driver treats it as no prior
progress — the done set is computed as empty without raising, no image is
skipped, and every discovered image is re-processed.  (Files that do parse,
but not as an array of objects, can instead crash the comprehension with a
`TypeError`.) -/
theorem driver_unparseable_empty_progress (existing : OutContent)
    (listing : List String) (infer : String → Except String String)
    (hex : existing.fileExists = true) (hload : jsonLoad existing = none) :
    driverDoneSet existing = some [] ∧
    driverPending listing [] = discoverImages listing ∧
    driverRecords listing [] infer =
      (discoverImages listing).map (fun f => (f, runInfer infer f)) := by
  refine ⟨?_, driverPending_nil listing, by rw [driverRecords, driverPending_nil]⟩
  unfold driverDoneSet
  rw [hex, hload]
  rfl

/-- Witness for the amended C7 at a corrupt file and a two-image listing. -/
theorem driver_unparseable_empty_progress_witness :
    OutContent.corrupt.fileExists = true ∧
    jsonLoad .corrupt = none ∧
    (driverDoneSet .corrupt = some [] ∧
      driverPending ["b.png", "a.png"] [] = ["a.png", "b.png"] ∧
      driverRecords ["b.png", "a.png"] [] inferOk =
        ["a.png", "b.png"].map (fun f => (f, runInfer inferOk f))) :=
  ⟨rfl, rfl, by
    have h := driver_unparseable_empty_progress .corrupt ["b.png", "a.png"]
      inferOk rfl rfl
    exact ⟨h.1, h.2.1, h.2.2⟩⟩

/-! ## Claims about the Builder -/

/-- Claim C3 (confirmed): every Builder invocation that passes the input
existence check and run-directory creation aborts with the undefined-name
error for the nowhere-defined function named by the string "_read_json"
(only read_jsonl exists in the module), before any prediction row is read and
before any of metrics.json, config.yaml, predictions.json is written. -/
theorem builder_always_nameError (ts : String) (a : BuilderArgs)
    (w : BuilderWorld) (auto : String)
    (h1 : w.inputExists = true)
    (h2 : autoRunName ts a = .ok auto)
    (h3 : w.outDirExists
      (if pyStrip a.run_name = "" then auto else pyStrip a.run_name) = false) :
    (builderMain ts a w).result = .error .nameError ∧
    (builderMain ts a w).writtenFiles = [] := by
  unfold builderMain
  rw [h1, h2]
  simp only [Bool.not_true, Bool.false_eq_true, if_false]
  rw [h3]
  exact ⟨rfl, rfl⟩

/-- Witness for C3 at the documented default arguments. -/
theorem builder_always_nameError_witness :
    (⟨true, true, fun _ => false⟩ : BuilderWorld).inputExists = true ∧
    autoRunName "2024-01-01_000000"
      ⟨"preds.json", "out", "", "data/ChartQA Dataset/test/png", "TinyChart",
        ⟨false, 0, 1⟩⟩ =
      .ok "2024-01-01_000000__ChartQA_Dataset_TinyChart_temp0_" ∧
    ((builderMain "2024-01-01_000000"
        ⟨"preds.json", "out", "", "data/ChartQA Dataset/test/png", "TinyChart",
          ⟨false, 0, 1⟩⟩ ⟨true, true, fun _ => false⟩).result =
        .error .nameError ∧
      (builderMain "2024-01-01_000000"
        ⟨"preds.json", "out", "", "data/ChartQA Dataset/test/png", "TinyChart",
          ⟨false, 0, 1⟩⟩ ⟨true, true, fun _ => false⟩).writtenFiles = []) :=
  ⟨rfl, rfl,
    builder_always_nameError "2024-01-01_000000"
      ⟨"preds.json", "out", "", "data/ChartQA Dataset/test/png", "TinyChart",
        ⟨false, 0, 1⟩⟩ ⟨true, true, fun _ => false⟩
      "2024-01-01_000000__ChartQA_Dataset_TinyChart_temp0_" rfl rfl rfl⟩

/-- Claim C4 (code bug): the spec promises that an input row missing
imagename or answer aborts the batch with a validation error naming the row
index and its keys, with no partial output.  The validation in
build_predictions does produce exactly that error, but the Builder main never
reaches it: it crashes with the undefined-name error right after creating the
run directory, for valid and invalid inputs alike. -/
theorem builder_validation_unreachable :
    build_predictions [[("imagename", PyVal.str "a.png")]] =
      .error (.missingKey 0 "answer" ["imagename"]) ∧
    builderMain "2024-01-01_000000"
      ⟨"preds.json", "out", "", "data/ChartQA Dataset/test/png", "TinyChart",
        ⟨false, 0, 1⟩⟩ ⟨true, true, fun _ => false⟩ =
      ⟨["out/2024-01-01_000000__ChartQA_Dataset_TinyChart_temp0_"], [],
        .error .nameError⟩ :=
  ⟨rfl, rfl⟩

/-- Claim C10 (confirmed): the auto-derived run name is evaluated before the
explicit run-name override is applied, so an images-directory value with no
slash makes the Builder main raise an index error and create no run directory
and no files, whatever the run-name argument is (here, with the output root
already present, no directory at all is created). -/
theorem builder_indexError_before_override (ts : String) (a : BuilderArgs)
    (w : BuilderWorld)
    (h1 : w.inputExists = true)
    (h2 : w.outRootExists = true)
    (h3 : (splitOnCh '/' a.input_images_dir.toList).get? 1 = none) :
    builderMain ts a w = ⟨[], [], .error .indexError⟩ := by
  unfold builderMain
  rw [h1, h2]
  simp only [Bool.not_true, Bool.false_eq_true, if_false, if_true]
  unfold autoRunName
  rw [h3]

/-- Witness for C10: an explicit run name is supplied and the images
directory has no slash; the run still dies with the index error. -/
theorem builder_indexError_before_override_witness :
    (⟨true, true, fun _ => false⟩ : BuilderWorld).inputExists = true ∧
    (⟨true, true, fun _ => false⟩ : BuilderWorld).outRootExists = true ∧
    (splitOnCh '/' "png".toList).get? 1 = none ∧
    builderMain "2024-01-01_000000"
      ⟨"preds.json", "out", "explicit_run", "png", "TinyChart", ⟨false, 0, 1⟩⟩
      ⟨true, true, fun _ => false⟩ = ⟨[], [], .error .indexError⟩ :=
  ⟨rfl, rfl, rfl,
    builder_indexError_before_override "2024-01-01_000000"
      ⟨"preds.json", "out", "explicit_run", "png", "TinyChart", ⟨false, 0, 1⟩⟩
      ⟨true, true, fun _ => false⟩ rfl rfl rfl⟩

/-- Claim C9, counterexample: the claim derives the tag by trimming the
temperature itself, with no three-decimal rounding; at temperature 0.1234 the
code produces "0p123" while the claimed formula gives "0p1234". -/
theorem format_temp_counterexample :
    _format_temp ⟨false, 1234, 4⟩ = "0p123" ∧
    claimTempTag ⟨false, 1234, 4⟩ = "0p1234" ∧
    _format_temp ⟨false, 1234, 4⟩ ≠ claimTempTag ⟨false, 1234, 4⟩ :=
  ⟨by decide, by decide, by decide⟩

/-- Successful validation preserves the number of rows. -/
theorem buildPredAux_length (rows : List Row) : ∀ (k : Nat) (out : List Row),
    buildPredAux k rows = .ok out → out.length = rows.length := by
  induction rows with
  | nil =>
    intro k out h
    simp only [buildPredAux] at h
    cases h
    rfl
  | cons row rest ih =>
    intro k out h
    unfold buildPredAux at h
    split at h
    · cases h
    · split at h
      · cases h
      · split at h
        · split at h
          · cases h
            simp only [List.length_cons]
            rw [ih _ _ (by assumption)]
          · cases h
        · cases h

/-- Each successfully validated row is transformed in place: key order, the
pipe-for-tab substitution and the zero token counts all come from the
source. -/
theorem buildPredAux_get (rows : List Row) : ∀ (k i : Nat) (out : List Row)
    (row : Row), buildPredAux k rows = .ok out → rows.get? i = some row →
    ∀ (img : String) (a : PyVal),
      row.lookup "imagename" = some (.str img) →
      row.lookup "answer" = some a →
      out.get? i = some (predOut img (pyAnswerStr a)) := by
  induction rows with
  | nil =>
    intro k i out row h hg
    simp at hg
  | cons r rest ih =>
    intro k i out row h hg img a hImg hAns
    cases i with
    | zero =>
      cases hg
      unfold buildPredAux at h
      rw [hImg, hAns] at h
      cases hb : buildPredAux (k + 1) rest with
      | ok out2 =>
        rw [hb] at h
        cases h
        rfl
      | error e =>
        rw [hb] at h
        cases h
    | succ i =>
      unfold buildPredAux at h
      split at h
      · cases h
      · split at h
        · cases h
        · split at h
          · split at h
            · cases h
              exact ih _ i _ row (by assumption) hg img a hImg hAns
            · cases h
          · cases h

/-- Claim C8 (confirmed): a successful build transforms each row with
imagename and answer into the object with keys image, answer (pipes replaced
by tabs, non-string answers JSON-stringified first), input_tokens 0 and
output_tokens 0, in place; in particular the documented round-trip row
produces exactly the documented entry. -/
theorem build_predictions_transform :
    (∀ (rows out : List Row), build_predictions rows = .ok out →
      out.length = rows.length) ∧
    (∀ (rows out : List Row) (i : Nat) (row : Row) (img : String) (a : PyVal),
      build_predictions rows = .ok out → rows.get? i = some row →
      row.lookup "imagename" = some (.str img) →
      row.lookup "answer" = some a →
      out.get? i = some (predOut img (pyAnswerStr a))) ∧
    build_predictions
        [[("imagename", .str "a.png"), ("answer", .str "x|y")]] =
      .ok [[("image", .str "a.png"), ("answer", .str "x\ty"),
            ("input_tokens", .int 0), ("output_tokens", .int 0)]] :=
  ⟨fun rows out h => buildPredAux_length rows 0 out h,
   fun rows out i row img a h hg hImg hAns =>
     buildPredAux_get rows 0 i out row h hg img a hImg hAns,
   rfl⟩

/-- Witness for C8 at the documented round-trip row. -/
theorem build_predictions_transform_witness :
    build_predictions
        [[("imagename", PyVal.str "a.png"), ("answer", PyVal.str "x|y")]] =
      .ok [[("image", PyVal.str "a.png"), ("answer", PyVal.str "x\ty"),
            ("input_tokens", PyVal.int 0), ("output_tokens", PyVal.int 0)]] ∧
    [[("image", PyVal.str "a.png"), ("answer", PyVal.str "x\ty"),
      ("input_tokens", PyVal.int 0), ("output_tokens", PyVal.int 0)]].get? 0 =
      some (predOut "a.png" (pyAnswerStr (.str "x|y"))) :=
  ⟨build_predictions_transform.2.2,
   build_predictions_transform.2.1
     [[("imagename", PyVal.str "a.png"), ("answer", PyVal.str "x|y")]]
     [[("image", PyVal.str "a.png"), ("answer", PyVal.str "x\ty"),
       ("input_tokens", PyVal.int 0), ("output_tokens", PyVal.int 0)]]
     0 [("imagename", PyVal.str "a.png"), ("answer", PyVal.str "x|y")]
     "a.png" (.str "x|y") build_predictions_transform.2.2 rfl rfl rfl⟩

/-! ## Temperature-tag lemmas (claim C9) -/

/-- Digit characters are never the decimal point. -/
theorem digitCh_ne_dot (d : Nat) : digitCh d ≠ '.' := by
  unfold digitCh
  split <;> decide

/-- A nonzero digit never prints as the character zero. -/
theorem digitCh_ne_zero {d : Nat} (h : d ≠ 0) : digitCh d ≠ '0' := by
  unfold digitCh
  split
  · exact absurd rfl h
  all_goals decide

/-- Digit strings are never empty. -/
theorem natRepr_ne_nil (n : Nat) : natRepr n ≠ [] := by
  rw [natRepr_eq]
  split
  · simp
  · simp

/-- The last character of a digit string is the last digit. -/
theorem natRepr_getLast (n : Nat) : (natRepr n).getLast? = some (digitCh (n % 10)) := by
  rw [natRepr_eq]
  split
  · rename_i h
    rw [Nat.mod_eq_of_lt h]
    rfl
  · exact List.getLast?_concat _

/-- Digit strings contain no decimal point. -/
theorem natRepr_no_dot (n : Nat) : ∀ c ∈ natRepr n, c ≠ '.' := by
  induction n using Nat.strong_induction_on with
  | _ n ih =>
    rw [natRepr_eq]
    split
    · intro c hc
      rw [List.mem_singleton] at hc
      subst hc
      exact digitCh_ne_dot _
    · rename_i h
      intro c hc
      rcases List.mem_append.mp hc with h1 | h2
      · exact ih (n / 10) (Nat.div_lt_self (by omega) (by omega)) c h1
      · rw [List.mem_singleton] at h2
        subst h2
        exact digitCh_ne_dot _

/-- The padded fraction blocks contain no decimal point. -/
theorem pad3_no_dot (n : Nat) : ∀ c ∈ pad3 n, c ≠ '.' := by
  intro c hc
  unfold pad3 at hc
  rcases List.mem_append.mp hc with h1 | h2
  · split at h1 <;> (try split at h1) <;> simp_all
  · exact natRepr_no_dot n c h2

/-- The two-character pad contains no decimal point. -/
theorem pad2_no_dot (n : Nat) : ∀ c ∈ pad2 n, c ≠ '.' := by
  intro c hc
  unfold pad2 at hc
  rcases List.mem_append.mp hc with h1 | h2
  · split at h1 <;> simp_all
  · exact natRepr_no_dot n c h2

/-- The trimmed fraction block contains no decimal point. -/
theorem minFrac_no_dot (fp : Nat) : ∀ c ∈ minFrac fp, c ≠ '.' := by
  intro c hc
  unfold minFrac at hc
  split at hc
  · simp at hc
  · split at hc
    · exact natRepr_no_dot _ c hc
    · split at hc
      · exact pad2_no_dot _ c hc
      · exact pad3_no_dot _ c hc

/-- The last character of the padded fraction block is a digit. -/
theorem pad3_getLast (n : Nat) : (pad3 n).getLast? = some (digitCh (n % 10)) := by
  unfold pad3
  rw [List.getLast?_append_of_ne_nil _ (natRepr_ne_nil _), natRepr_getLast]

/-- The last character of the two-character pad is a digit. -/
theorem pad2_getLast (n : Nat) : (pad2 n).getLast? = some (digitCh (n % 10)) := by
  unfold pad2
  rw [List.getLast?_append_of_ne_nil _ (natRepr_ne_nil _), natRepr_getLast]

/-- The trimmed fraction block of a nonzero fraction ends in a digit. -/
theorem minFrac_getLast {fp : Nat} (h : fp ≠ 0) :
    ∃ d, (minFrac fp).getLast? = some (digitCh d) := by
  unfold minFrac
  rw [if_neg h]
  split
  · exact ⟨_, natRepr_getLast _⟩
  · split
    · exact ⟨_, pad2_getLast _⟩
    · exact ⟨_, pad3_getLast _⟩

/-- Stripping a trailing run from a concatenation: either the right part is
consumed entirely and stripping continues in the left part, or it is not and
the left part is untouched. -/
theorem rstripChar_append (xs ys : List Char) (c : Char) :
    rstripChar (xs ++ ys) c =
      if rstripChar ys c = [] then rstripChar xs c else xs ++ rstripChar ys c := by
  unfold rstripChar
  rw [List.reverse_append, List.dropWhile_append]
  by_cases hd : List.dropWhile (fun x => x == c) ys.reverse = []
  · rw [if_pos (by simp [hd]), if_pos (by simp [hd])]
  · rw [if_neg (by simp [hd]), if_neg (by simp [hd])]
    simp

/-- A list whose last element is not the stripped character is unchanged. -/
theorem rstripChar_of_getLast (l : List Char) (c x : Char)
    (hl : l.getLast? = some x) (hx : x ≠ c) : rstripChar l c = l := by
  unfold rstripChar
  cases hr : l.reverse with
  | nil =>
    have hnil : l = [] := by
      have := congrArg List.reverse hr
      simpa using this
    rw [hnil] at hl
    cases hl
  | cons y ys =>
    have hy : y = x := by
      have h1 : l.reverse.head? = some x := by rw [List.head?_reverse, hl]
      rw [hr] at h1
      exact Option.some.inj h1
    subst hy
    rw [List.dropWhile_cons, if_neg (by simp [hx])]
    rw [← hr, List.reverse_reverse]

/-- Replacement is the identity on lists avoiding the replaced character. -/
theorem replaceCh_of_no_occ (l : List Char) (a b : Char)
    (h : ∀ c ∈ l, c ≠ a) : replaceCh l a b = l := by
  unfold replaceCh
  induction l with
  | nil => rfl
  | cons x xs ih =>
    rw [List.map_cons, if_neg (h x (by simp)), ih (fun c hc => h c (by simp [hc]))]

/-- Replacement distributes over concatenation. -/
theorem replaceCh_append (xs ys : List Char) (a b : Char) :
    replaceCh (xs ++ ys) a b = replaceCh xs a b ++ replaceCh ys a b :=
  List.map_append _ _ _

/-- Stripping the trailing zeros of a three-digit fraction block yields the
trimmed fraction block. -/
theorem strip_pad3 {fp : Nat} (hlt : fp < 1000) :
    rstripChar (pad3 fp) '0' = minFrac fp := by
  by_cases h0 : fp = 0
  · subst h0
    decide
  by_cases h100 : fp % 100 = 0
  · have hdne : fp / 100 ≠ 0 := by omega
    have e1 : natRepr fp = natRepr (fp / 10) ++ [digitCh (fp % 10)] := by
      rw [natRepr_eq, if_neg (by omega)]
    have e2 : natRepr (fp / 10) = natRepr (fp / 100) ++ [digitCh (fp / 10 % 10)] := by
      rw [natRepr_eq, if_neg (by omega)]
      congr 2
      omega
    have e3 : natRepr (fp / 100) = [digitCh (fp / 100)] := by
      rw [natRepr_eq, if_pos (by omega)]
    have hm1 : fp % 10 = 0 := by omega
    have hm2 : fp / 10 % 10 = 0 := by omega
    have hfp : pad3 fp = [digitCh (fp / 100), '0', '0'] := by
      unfold pad3
      rw [if_neg (by omega), if_neg (by omega), e1, e2, e3, hm1, hm2]
      rfl
    rw [hfp]
    have hb : (digitCh (fp / 100) == '0') = false :=
      beq_eq_false_iff_ne.mpr (digitCh_ne_zero hdne)
    unfold rstripChar minFrac
    rw [if_neg h0, if_pos h100, e3]
    show (List.dropWhile (fun x => x == '0')
      ['0', '0', digitCh (fp / 100)]).reverse = [digitCh (fp / 100)]
    rw [List.dropWhile_cons, if_pos (by decide), List.dropWhile_cons,
      if_pos (by decide), List.dropWhile_cons, if_neg (by simp [hb])]
    rfl
  by_cases h10 : fp % 10 = 0
  · have hgm : fp / 10 % 10 ≠ 0 := by omega
    have e1 : natRepr fp = natRepr (fp / 10) ++ [digitCh 0] := by
      rw [natRepr_eq, if_neg (by omega), h10]
    have hp : pad3 fp =
        ((if fp < 100 then (['0'] : List Char) else []) ++ natRepr (fp / 10)) ++ ['0'] := by
      unfold pad3
      rw [if_neg (by omega : ¬ fp < 10), e1,
        show digitCh 0 = '0' from rfl, ← List.append_assoc]
    rw [hp, rstripChar_append, if_pos (by decide),
      rstripChar_of_getLast _ _ (digitCh (fp / 10 % 10))
        (by rw [List.getLast?_append_of_ne_nil _ (natRepr_ne_nil _), natRepr_getLast])
        (digitCh_ne_zero hgm)]
    unfold minFrac pad2
    rw [if_neg h0, if_neg h100, if_pos h10]
    congr 1
    by_cases hl : fp < 100
    · rw [if_pos hl, if_pos (by omega)]
    · rw [if_neg hl, if_neg (by omega)]
  · rw [rstripChar_of_getLast _ _ (digitCh (fp % 10)) (pad3_getLast fp)
      (digitCh_ne_zero h10)]
    unfold minFrac
    rw [if_neg h0, if_neg h100, if_neg h10]

/-- The trimmed fraction block of a nonzero fraction is nonempty. -/
theorem minFrac_ne_nil {fp : Nat} (h : fp ≠ 0) : minFrac fp ≠ [] := by
  unfold minFrac
  rw [if_neg h]
  split
  · exact natRepr_ne_nil _
  · split
    · unfold pad2
      simp [natRepr_ne_nil]
    · unfold pad3
      simp [natRepr_ne_nil]

/-- Core of the temperature-tag equivalence: stripping trailing zeros and the
decimal point from a sign, integer part, point and three-digit fraction, then
replacing the point, is the same as printing the trimmed digits directly. -/
theorem strip_format_core (sign : List Char) (ip fp : Nat)
    (hsign : ∀ c ∈ sign, c ≠ '.') (hfp : fp < 1000) :
    replaceCh (rstripChar (rstripChar
        (sign ++ natRepr ip ++ '.' :: pad3 fp) '0') '.') '.' 'p' =
      sign ++ natRepr ip ++ (if fp = 0 then [] else 'p' :: minFrac fp) := by
  have hnodot : ∀ c ∈ sign ++ natRepr ip, c ≠ '.' := by
    intro c hc
    rcases List.mem_append.mp hc with h1 | h2
    · exact hsign c h1
    · exact natRepr_no_dot ip c h2
  have hassoc : sign ++ natRepr ip ++ '.' :: pad3 fp =
      ((sign ++ natRepr ip) ++ ['.']) ++ pad3 fp := by simp
  rw [hassoc, rstripChar_append, strip_pad3 hfp]
  by_cases h0 : fp = 0
  · rw [if_pos (by rw [h0]; rfl)]
    rw [rstripChar_append, if_neg (by decide),
      show rstripChar ['.'] '0' = ['.'] from rfl]
    rw [rstripChar_append, if_pos (by decide)]
    rw [rstripChar_of_getLast _ _ (digitCh (ip % 10))
      (by rw [List.getLast?_append_of_ne_nil _ (natRepr_ne_nil _), natRepr_getLast])
      (digitCh_ne_dot _)]
    rw [replaceCh_of_no_occ _ _ _ hnodot, if_pos h0]
    simp
  · have hmf : minFrac fp ≠ [] := minFrac_ne_nil h0
    rw [if_neg hmf]
    obtain ⟨d, hd⟩ := minFrac_getLast h0
    rw [rstripChar_of_getLast _ _ (digitCh d)
      (by rw [List.getLast?_append_of_ne_nil _ hmf, hd]) (digitCh_ne_dot _)]
    rw [replaceCh_append, replaceCh_append,
      replaceCh_of_no_occ (sign ++ natRepr ip) _ _ hnodot,
      show replaceCh ['.'] '.' 'p' = ['p'] from rfl,
      replaceCh_of_no_occ (minFrac fp) _ _ (minFrac_no_dot fp),
      if_neg h0]
    simp

/-- The code's temperature tag equals the direct trimmed-digit rendering. -/
theorem format_temp_eq_amended (t : DecTemp) :
    _format_temp t = amendedTempTag t := by
  unfold _format_temp amendedTempTag format3f
  refine congrArg String.mk ?_
  refine strip_format_core _ _ _ ?_ (Nat.mod_lt _ (by omega))
  intro c hc
  split at hc
  · rw [List.mem_singleton] at hc
    subst hc
    decide
  · simp at hc

/-- Claim C9 as amended (corrected): for every temperature value the run-name
temperature tag equals the temperature formatted to three decimal places
(rounding half to even), with trailing zeros and the decimal point trimmed
and the decimal point replaced by the letter p; in particular temperature 0.0
yields "0", 0.75 yields "0p75" and 2.0 yields "2". -/
theorem format_temp_spec (t : DecTemp) :
    _format_temp t = amendedTempTag t ∧
    _format_temp ⟨false, 0, 1⟩ = "0" ∧
    _format_temp ⟨false, 75, 2⟩ = "0p75" ∧
    _format_temp ⟨false, 20, 1⟩ = "2" :=
  ⟨format_temp_eq_amended t, by decide, by decide, by decide⟩
